import Mathlib

/-!
Shallow embedding of the personalization engine of the Enclave-Health
repository (`src/offline/src/logic/evaluation.ts` together with the
`UserProfile` record of `src/offline/src/db/db.ts`), and proofs of the
specification's claims about it.

JavaScript numbers are modelled by exact rationals (`ℚ`); `Math.round`
is modelled by Mathlib's `round`, which agrees with JavaScript's
round-half-toward-positive-infinity (`⌊x + 1/2⌋`).  Optional numeric
fields of `UserProfile` are modelled by `Option ℚ`, and the
destructuring defaults `benchPress = 0` etc. by `Option.getD 0`.
`Date` fields, irrelevant to the engine, are modelled as integers.
-/

namespace EnclaveHealth

/-- The `gender` union type of `UserProfile` in `db.ts`. -/
inductive Gender
| male
| female
| other
deriving DecidableEq

/-- The `fitnessAim` union type of `UserProfile` in `db.ts`. -/
inductive FitnessAim
| lose_fat
| gain_muscle
| maintain
deriving DecidableEq

/-- The `UserProfile` interface of `db.ts` (fields in source order). -/
structure UserProfile where
  id : Option Nat
  name : String
  weight : ℚ
  height : ℚ
  age : ℚ
  gender : Gender
  fitnessAim : FitnessAim
  benchPress : Option ℚ
  squat : Option ℚ
  deadlift : Option ℚ
  overheadPress : Option ℚ
  createdAt : ℤ
  updatedAt : ℤ
deriving DecidableEq

/-- The strength-tier strings `beginner | novice | intermediate | advanced`
used throughout `assessStrengthLevel`. -/
inductive StrengthTier
| beginner
| novice
| intermediate
| advanced
deriving DecidableEq

/-- Rendering of a tier back to its source string (used by the string
interpolation in `createPersonalizedPlan`). -/
def StrengthTier.str : StrengthTier → String
| .beginner => "beginner"
| .novice => "novice"
| .intermediate => "intermediate"
| .advanced => "advanced"

/-- Position of a tier in the source's `levels` array
(`levels.indexOf` in `assessStrengthLevel`). -/
def tierIndex : StrengthTier → Nat
| .beginner => 0
| .novice => 1
| .intermediate => 2
| .advanced => 3

/-- Indexing into the source's `levels` array (`levels[overallIndex]`);
only indices 0–3 ever occur. -/
def tierOfIndex : Nat → StrengthTier
| 0 => .beginner
| 1 => .novice
| 2 => .intermediate
| _ => .advanced

/-- The anonymous return type of `assessStrengthLevel`. -/
structure StrengthAssessment where
  bench : StrengthTier
  squat : StrengthTier
  deadlift : StrengthTier
  overall : StrengthTier
deriving DecidableEq

/-- One row of the strength-standards table: the four ascending
body-weight-ratio thresholds for a single lift. -/
structure LiftStandard where
  beginner : ℚ
  novice : ℚ
  intermediate : ℚ
  advanced : ℚ
deriving DecidableEq

/-- The per-gender strength-standards table of `assessStrengthLevel`. -/
structure StrengthStandards where
  bench : LiftStandard
  squat : LiftStandard
  deadlift : LiftStandard
deriving DecidableEq

/-- The gender-keyed ternary choosing the standards table in
`assessStrengthLevel`: male gets one set, female/other share a lower set. -/
def standardsFor (gender : Gender) : StrengthStandards :=
  if gender = Gender.male then
    { bench := ⟨0.5, 0.8, 1.2, 1.5⟩
      squat := ⟨0.8, 1.2, 1.8, 2.2⟩
      deadlift := ⟨1.0, 1.5, 2.0, 2.5⟩ }
  else
    { bench := ⟨0.3, 0.5, 0.8, 1.0⟩
      squat := ⟨0.6, 0.9, 1.3, 1.6⟩
      deadlift := ⟨0.8, 1.2, 1.6, 2.0⟩ }

/-- The `assessLift` closure of `assessStrengthLevel`, lambda-lifted over
the captured body weight. -/
def assessLift (weight liftWeight : ℚ) (standard : LiftStandard) : StrengthTier :=
  let ratio := liftWeight / weight
  if ratio ≥ standard.advanced then .advanced
  else if ratio ≥ standard.intermediate then .intermediate
  else if ratio ≥ standard.novice then .novice
  else .beginner

/-- The `NutritionPlan` interface of `evaluation.ts`. -/
structure NutritionPlan where
  totalCalories : ℤ
  protein : ℤ
  carbs : ℤ
  fat : ℤ
  proteinPercent : ℤ
  carbsPercent : ℤ
  fatPercent : ℤ
  mealsPerDay : ℤ
deriving DecidableEq

/-- The `type` tag of `WorkoutProgram`. -/
inductive ProgramType
| strength
| hypertrophy
| fat_loss
deriving DecidableEq

/-- Rendering of a program type back to its source string (used by the
string interpolation in `createPersonalizedPlan`). -/
def ProgramType.str : ProgramType → String
| .strength => "strength"
| .hypertrophy => "hypertrophy"
| .fat_loss => "fat_loss"

/-- The `ProgramExercise` interface of `evaluation.ts`. -/
structure ProgramExercise where
  name : String
  sets : Nat
  reps : String
  restTime : Nat
  weight : Option ℚ := none
  notes : Option String := none
deriving DecidableEq

/-- The `WorkoutDay` interface of `evaluation.ts`. -/
structure WorkoutDay where
  name : String
  exercises : List ProgramExercise
deriving DecidableEq

/-- The `WorkoutProgram` interface of `evaluation.ts`. -/
structure WorkoutProgram where
  name : String
  type : ProgramType
  frequency : Nat
  duration : Nat
  workouts : List WorkoutDay
deriving DecidableEq

/-- The `PersonalizedPlan` interface of `evaluation.ts`: exactly the
three fields `workoutProgram`, `nutritionPlan`, `recommendations`. -/
structure PersonalizedPlan where
  workoutProgram : WorkoutProgram
  nutritionPlan : NutritionPlan
  recommendations : List String
deriving DecidableEq

namespace EvaluationModel

/-- `EvaluationModel.calculateBMR`: Mifflin-St Jeor equation, one branch
for male, the `else` shared by female and other. -/
def calculateBMR (profile : UserProfile) : ℚ :=
  if profile.gender = Gender.male then
    10 * profile.weight + 6.25 * profile.height - 5 * profile.age + 5
  else
    10 * profile.weight + 6.25 * profile.height - 5 * profile.age - 161

/-- `EvaluationModel.calculateTDEE`: BMR times the fixed moderately
active multiplier 1.55. -/
def calculateTDEE (profile : UserProfile) : ℚ :=
  let bmr := calculateBMR profile
  let activityMultiplier : ℚ := 1.55
  bmr * activityMultiplier

/-- `EvaluationModel.calculateOneRM`: Epley formula with a special case
for a single rep and no guard for reps ≤ 0. -/
def calculateOneRM (weight reps : ℚ) : ℚ :=
  if reps = 1 then weight else weight * (1 + reps / 30)

/-- `EvaluationModel.assessStrengthLevel`: per-lift tiers from
body-weight ratios against the gender-keyed table, missing lifts
defaulting to 0, overall tier the lowest of the three. -/
def assessStrengthLevel (profile : UserProfile) : StrengthAssessment :=
  let weight := profile.weight
  let benchPress := profile.benchPress.getD 0
  let squat := profile.squat.getD 0
  let deadlift := profile.deadlift.getD 0
  let standards := standardsFor profile.gender
  let benchLevel := assessLift weight benchPress standards.bench
  let squatLevel := assessLift weight squat standards.squat
  let deadliftLevel := assessLift weight deadlift standards.deadlift
  let overallIndex :=
    min (tierIndex benchLevel) (min (tierIndex squatLevel) (tierIndex deadliftLevel))
  { bench := benchLevel
    squat := squatLevel
    deadlift := deadliftLevel
    overall := tierOfIndex overallIndex }

/-- `EvaluationModel.getStrengthProgram` (the `_level` argument is
ignored by the source as well). -/
def getStrengthProgram (_level : StrengthTier) : WorkoutProgram :=
  let beginner : List WorkoutDay := [
    { name := "Day A"
      exercises := [
        { name := "Squat", sets := 3, reps := "5", restTime := 180 },
        { name := "Bench Press", sets := 3, reps := "5", restTime := 180 },
        { name := "Bent-over Row", sets := 3, reps := "5", restTime := 180 },
        { name := "Overhead Press", sets := 2, reps := "8", restTime := 120 },
        { name := "Romanian Deadlift", sets := 2, reps := "8", restTime := 120 }
      ] },
    { name := "Day B"
      exercises := [
        { name := "Deadlift", sets := 1, reps := "5", restTime := 240 },
        { name := "Overhead Press", sets := 3, reps := "5", restTime := 180 },
        { name := "Squat", sets := 3, reps := "5", restTime := 180, weight := some 0.9 },
        { name := "Pull-ups/Chin-ups", sets := 2, reps := "AMRAP", restTime := 120 },
        { name := "Dips", sets := 2, reps := "8-12", restTime := 120 }
      ] }
  ]
  { name := "Starting Strength Program"
    type := .strength
    frequency := 3
    duration := 12
    workouts := beginner }

/-- `EvaluationModel.getHypertrophyProgram` (the `_level` argument is
ignored by the source as well). -/
def getHypertrophyProgram (_level : StrengthTier) : WorkoutProgram :=
  let hypertrophy : List WorkoutDay := [
    { name := "Upper Body A"
      exercises := [
        { name := "Bench Press", sets := 4, reps := "8-10", restTime := 120 },
        { name := "Bent-over Row", sets := 4, reps := "8-10", restTime := 120 },
        { name := "Overhead Press", sets := 3, reps := "10-12", restTime := 90 },
        { name := "Lat Pulldown", sets := 3, reps := "10-12", restTime := 90 },
        { name := "Dips", sets := 3, reps := "12-15", restTime := 90 },
        { name := "Barbell Curls", sets := 3, reps := "12-15", restTime := 60 }
      ] },
    { name := "Lower Body A"
      exercises := [
        { name := "Squat", sets := 4, reps := "8-10", restTime := 150 },
        { name := "Romanian Deadlift", sets := 4, reps := "10-12", restTime := 120 },
        { name := "Bulgarian Split Squat", sets := 3, reps := "12-15", restTime := 90 },
        { name := "Walking Lunges", sets := 3, reps := "12-15", restTime := 90 },
        { name := "Calf Raises", sets := 4, reps := "15-20", restTime := 60 },
        { name := "Plank", sets := 3, reps := "60s", restTime := 60 }
      ] },
    { name := "Upper Body B"
      exercises := [
        { name := "Incline Dumbbell Press", sets := 4, reps := "8-10", restTime := 120 },
        { name := "Seated Cable Row", sets := 4, reps := "8-10", restTime := 120 },
        { name := "Dumbbell Shoulder Press", sets := 3, reps := "10-12", restTime := 90 },
        { name := "Pull-ups", sets := 3, reps := "AMRAP", restTime := 90 },
        { name := "Tricep Extensions", sets := 3, reps := "12-15", restTime := 60 },
        { name := "Hammer Curls", sets := 3, reps := "12-15", restTime := 60 }
      ] },
    { name := "Lower Body B"
      exercises := [
        { name := "Deadlift", sets := 4, reps := "6-8", restTime := 180 },
        { name := "Front Squat", sets := 3, reps := "10-12", restTime := 120 },
        { name := "Leg Curls", sets := 3, reps := "12-15", restTime := 90 },
        { name := "Leg Press", sets := 3, reps := "15-20", restTime := 90 },
        { name := "Standing Calf Raises", sets := 4, reps := "15-20", restTime := 60 },
        { name := "Russian Twists", sets := 3, reps := "20", restTime := 60 }
      ] }
  ]
  { name := "Upper/Lower Hypertrophy Split"
    type := .hypertrophy
    frequency := 4
    duration := 8
    workouts := hypertrophy }

/-- `EvaluationModel.getFatLossProgram` (the `_level` argument is
ignored by the source as well). -/
def getFatLossProgram (_level : StrengthTier) : WorkoutProgram :=
  let fatLoss : List WorkoutDay := [
    { name := "Full Body Circuit A"
      exercises := [
        { name := "Goblet Squats", sets := 3, reps := "15", restTime := 45 },
        { name := "Push-ups", sets := 3, reps := "12-15", restTime := 45 },
        { name := "Bent-over Dumbbell Rows", sets := 3, reps := "12", restTime := 45 },
        { name := "Mountain Climbers", sets := 3, reps := "20", restTime := 45 },
        { name := "Plank", sets := 3, reps := "45s", restTime := 45 },
        { name := "Burpees", sets := 3, reps := "8-10", restTime := 60 }
      ] },
    { name := "Full Body Circuit B"
      exercises := [
        { name := "Deadlifts", sets := 3, reps := "10", restTime := 60 },
        { name := "Overhead Press", sets := 3, reps := "10", restTime := 45 },
        { name := "Lunges", sets := 3, reps := "12 each leg", restTime := 45 },
        { name := "Jumping Jacks", sets := 3, reps := "30", restTime := 30 },
        { name := "Russian Twists", sets := 3, reps := "20", restTime := 30 },
        { name := "High Knees", sets := 3, reps := "30s", restTime := 45 }
      ] },
    { name := "Full Body Circuit C"
      exercises := [
        { name := "Thrusters", sets := 3, reps := "12", restTime := 45 },
        { name := "Renegade Rows", sets := 3, reps := "8 each arm", restTime := 60 },
        { name := "Jump Squats", sets := 3, reps := "15", restTime := 45 },
        { name := "Bicycle Crunches", sets := 3, reps := "20", restTime := 30 },
        { name := "Bear Crawl", sets := 3, reps := "30s", restTime := 45 },
        { name := "Battle Ropes", sets := 3, reps := "30s", restTime := 60 }
      ] }
  ]
  { name := "Fat Loss Circuit Training"
    type := .fat_loss
    frequency := 3
    duration := 6
    workouts := fatLoss }

/-- `EvaluationModel.generateWorkoutProgram`: branch on `fitnessAim`,
passing the computed overall strength level to the template builders. -/
def generateWorkoutProgram (profile : UserProfile) : WorkoutProgram :=
  let strengthLevel := assessStrengthLevel profile
  if profile.fitnessAim = FitnessAim.gain_muscle then
    getHypertrophyProgram strengthLevel.overall
  else if profile.fitnessAim = FitnessAim.lose_fat then
    getFatLossProgram strengthLevel.overall
  else
    getStrengthProgram strengthLevel.overall

/-- `EvaluationModel.generateNutritionPlan`: switch on `fitnessAim` for
the calorie factor and macro split, then independent rounding of each
output field. -/
def generateNutritionPlan (profile : UserProfile) : NutritionPlan :=
  let tdee := calculateTDEE profile
  let params : ℚ × ℤ × ℤ × ℤ :=
    match profile.fitnessAim with
    | .lose_fat => (tdee * 0.8, 40, 30, 30)
    | .gain_muscle => (tdee * 1.15, 25, 50, 25)
    | .maintain => (tdee, 30, 40, 30)
  let calories := params.1
  let proteinPercent := params.2.1
  let carbsPercent := params.2.2.1
  let fatPercent := params.2.2.2
  let protein := calories * (proteinPercent : ℚ) / 100 / 4
  let carbs := calories * (carbsPercent : ℚ) / 100 / 4
  let fat := calories * (fatPercent : ℚ) / 100 / 9
  { totalCalories := round calories
    protein := round protein
    carbs := round carbs
    fat := round fat
    proteinPercent := proteinPercent
    carbsPercent := carbsPercent
    fatPercent := fatPercent
    mealsPerDay := 4 }

/-- `EvaluationModel.createPersonalizedPlan`: bundles the workout
program, the nutrition plan and the six recommendation strings. -/
def createPersonalizedPlan (profile : UserProfile) : PersonalizedPlan :=
  let workoutProgram := generateWorkoutProgram profile
  let nutritionPlan := generateNutritionPlan profile
  let strengthLevel := assessStrengthLevel profile
  let ov := strengthLevel.overall.str
  let ty := workoutProgram.type.str
  let td := round (calculateTDEE profile)
  let pg := nutritionPlan.protein
  let cg := nutritionPlan.carbs
  let fg := nutritionPlan.fat
  let recommendations : List String := [
    s!"Based on your strength level ({ov}), we\x27ve designed a {ty} program.",
    s!"Your estimated TDEE is {td} calories per day.",
    s!"Target {pg}g protein, {cg}g carbs, {fg}g fat daily.",
    "Track your workouts and adjust weights progressively.",
    "Stay consistent with your nutrition and training schedule.",
    "Take progress photos and measurements weekly."
  ]
  { workoutProgram := workoutProgram
    nutritionPlan := nutritionPlan
    recommendations := recommendations }

end EvaluationModel

end EnclaveHealth

namespace EnclaveHealth

open EvaluationModel

/-! Concrete profiles used by the witnesses and counterexamples, and the
specification-side definitions compared against the code. -/

/-- The spec's running example profile: male, 80 kg, 180 cm, 30 years,
aim lose_fat, no lift values recorded. -/
def profileLoseFat80 : UserProfile :=
  { id := none, name := "", weight := 80, height := 180, age := 30,
    gender := .male, fitnessAim := .lose_fat,
    benchPress := none, squat := none, deadlift := none, overheadPress := none,
    createdAt := 0, updatedAt := 0 }

/-- A maintain-aim profile. -/
def profileMaintainA : UserProfile :=
  { id := none, name := "A", weight := 80, height := 180, age := 30,
    gender := .male, fitnessAim := .maintain,
    benchPress := none, squat := none, deadlift := none, overheadPress := none,
    createdAt := 0, updatedAt := 0 }

/-- A second maintain-aim profile differing from `profileMaintainA` in
every engine-relevant field except the fitness aim. -/
def profileMaintainB : UserProfile :=
  { id := some 7, name := "B", weight := 55, height := 160, age := 44,
    gender := .female, fitnessAim := .maintain,
    benchPress := some 60, squat := some 90, deadlift := some 120, overheadPress := some 40,
    createdAt := 1, updatedAt := 2 }

/-- `profileMaintainA` with a bench press of 80 kg added: the bench tier
changes to novice but the overall tier and every plan output stay put. -/
def profileC2B : UserProfile :=
  { id := none, name := "A", weight := 80, height := 180, age := 30,
    gender := .male, fitnessAim := .maintain,
    benchPress := some 80, squat := none, deadlift := none, overheadPress := none,
    createdAt := 0, updatedAt := 0 }

/-- A maintain-aim profile whose TDEE is 2006.63 kcal: rounding the
calories before computing the macros changes the protein grams. -/
def profileC1 : UserProfile :=
  { id := none, name := "", weight := 31.46, height := 180, age := 30,
    gender := .male, fitnessAim := .maintain,
    benchPress := none, squat := none, deadlift := none, overheadPress := none,
    createdAt := 0, updatedAt := 0 }

/-- `profileLoseFat80` with all three lifts set to 0. -/
def profileZeroLifts : UserProfile :=
  { profileLoseFat80 with benchPress := some 0, squat := some 0, deadlift := some 0 }

/-- A degenerate profile with body weight 0 and no lift values. -/
def profileZeroWeight : UserProfile :=
  { id := none, name := "", weight := 0, height := 180, age := 30,
    gender := .male, fitnessAim := .maintain,
    benchPress := none, squat := none, deadlift := none, overheadPress := none,
    createdAt := 0, updatedAt := 0 }

/-- A degenerate profile with negative body weight and positive lifts. -/
def profileNegWeight : UserProfile :=
  { id := none, name := "", weight := -70, height := 180, age := 30,
    gender := .male, fitnessAim := .maintain,
    benchPress := some 100, squat := some 100, deadlift := some 100, overheadPress := none,
    createdAt := 0, updatedAt := 0 }

/-- The per-lift rule as the specification words it: the tier is the
highest of the four ascending thresholds the ratio meets or exceeds,
beginner when it is below the lowest. -/
def specAssessLift (r : ℚ) (s : LiftStandard) : StrengthTier :=
  if r ≥ s.advanced then .advanced
  else if r ≥ s.intermediate then .intermediate
  else if r ≥ s.novice then .novice
  else if r ≥ s.beginner then .beginner
  else .beginner

/-- The nutrition-plan formula as the specification words it (amended):
the calorie factor and macro percent split are keyed by fitnessAim, and
the macro gram fields are computed from the unrounded calorie value
tdee * factor. -/
def nutritionPlanSpec (profile : UserProfile) : NutritionPlan :=
  let tdee := calculateTDEE profile
  let factor : ℚ :=
    match profile.fitnessAim with
    | .lose_fat => 0.8
    | .gain_muscle => 1.15
    | .maintain => 1
  let proteinPercent : ℤ :=
    match profile.fitnessAim with
    | .lose_fat => 40
    | .gain_muscle => 25
    | .maintain => 30
  let carbsPercent : ℤ :=
    match profile.fitnessAim with
    | .lose_fat => 30
    | .gain_muscle => 50
    | .maintain => 40
  let fatPercent : ℤ :=
    match profile.fitnessAim with
    | .lose_fat => 30
    | .gain_muscle => 25
    | .maintain => 30
  let calories := tdee * factor
  { totalCalories := round calories
    protein := round (calories * (proteinPercent : ℚ) / 100 / 4)
    carbs := round (calories * (carbsPercent : ℚ) / 100 / 4)
    fat := round (calories * (fatPercent : ℚ) / 100 / 9)
    proteinPercent := proteinPercent
    carbsPercent := carbsPercent
    fatPercent := fatPercent
    mealsPerDay := 4 }

/-! Helper lemmas shared by the claim theorems. -/

/-- Evaluation rule for `round` on rationals: `round q = ⌊q + 1/2⌋`,
exactly JavaScript's `Math.round`. -/
lemma round_val {q : ℚ} {n : ℤ} (h₁ : (n : ℚ) ≤ q + 1/2) (h₂ : q + 1/2 < n + 1) :
    round q = n := by
  rw [round_eq]
  exact Int.floor_eq_iff.mpr ⟨h₁, by exact_mod_cast h₂⟩

/-- The male standards table, unfolded. -/
lemma standardsFor_male :
    standardsFor .male =
      { bench := ⟨0.5, 0.8, 1.2, 1.5⟩
        squat := ⟨0.8, 1.2, 1.8, 2.2⟩
        deadlift := ⟨1.0, 1.5, 2.0, 2.5⟩ } := by
  rw [standardsFor, if_pos rfl]

/-- The table shared by female and other genders, unfolded. -/
lemma standardsFor_nonmale {g : Gender} (hg : g ≠ .male) :
    standardsFor g =
      { bench := ⟨0.3, 0.5, 0.8, 1.0⟩
        squat := ⟨0.6, 0.9, 1.3, 1.6⟩
        deadlift := ⟨0.8, 1.2, 1.6, 2.0⟩ } := by
  rw [standardsFor, if_neg hg]

/-- The code's three-way cascade coincides with the spec's four-threshold
reading: the extra comparison against the beginner threshold is redundant
because both of its outcomes are beginner. -/
lemma assessLift_eq_spec (w l : ℚ) (s : LiftStandard) :
    assessLift w l s = specAssessLift (l / w) s := by
  rw [assessLift, specAssessLift]
  split_ifs <;> rfl

lemma tierIndex_le_three (t : StrengthTier) : tierIndex t ≤ 3 := by
  cases t <;> simp [tierIndex]

lemma tierIndex_tierOfIndex {n : Nat} (h : n ≤ 3) : tierIndex (tierOfIndex n) = n := by
  interval_cases n <;> rfl

/-- A nonpositive ratio always lands in the beginner tier when the
novice, intermediate and advanced thresholds are positive. -/
lemma assessLift_nonpos {w l : ℚ} (hl : l / w ≤ 0) (s : LiftStandard)
    (h1 : 0 < s.novice) (h2 : 0 < s.intermediate) (h3 : 0 < s.advanced) :
    assessLift w l s = .beginner := by
  rw [assessLift]
  rw [if_neg (not_le.mpr (lt_of_le_of_lt hl h3)),
    if_neg (not_le.mpr (lt_of_le_of_lt hl h2)),
    if_neg (not_le.mpr (lt_of_le_of_lt hl h1))]

/-- Every threshold actually compared against by the code is positive,
for both gender tables. -/
lemma standardsFor_pos (g : Gender) :
    (0 < (standardsFor g).bench.novice ∧ 0 < (standardsFor g).bench.intermediate ∧
      0 < (standardsFor g).bench.advanced) ∧
    (0 < (standardsFor g).squat.novice ∧ 0 < (standardsFor g).squat.intermediate ∧
      0 < (standardsFor g).squat.advanced) ∧
    (0 < (standardsFor g).deadlift.novice ∧ 0 < (standardsFor g).deadlift.intermediate ∧
      0 < (standardsFor g).deadlift.advanced) := by
  cases g
  · rw [standardsFor_male]; norm_num
  · rw [standardsFor_nonmale (by decide)]; norm_num
  · rw [standardsFor_nonmale (by decide)]; norm_num

lemma bench_zero_beginner (p : UserProfile) (hb : p.benchPress.getD 0 = 0) :
    (assessStrengthLevel p).bench = .beginner := by
  show assessLift _ _ _ = _
  rw [hb]
  exact assessLift_nonpos (zero_div _).le _ (standardsFor_pos p.gender).1.1
    (standardsFor_pos p.gender).1.2.1 (standardsFor_pos p.gender).1.2.2

lemma squat_zero_beginner (p : UserProfile) (hb : p.squat.getD 0 = 0) :
    (assessStrengthLevel p).squat = .beginner := by
  show assessLift _ _ _ = _
  rw [hb]
  exact assessLift_nonpos (zero_div _).le _ (standardsFor_pos p.gender).2.1.1
    (standardsFor_pos p.gender).2.1.2.1 (standardsFor_pos p.gender).2.1.2.2

lemma deadlift_zero_beginner (p : UserProfile) (hb : p.deadlift.getD 0 = 0) :
    (assessStrengthLevel p).deadlift = .beginner := by
  show assessLift _ _ _ = _
  rw [hb]
  exact assessLift_nonpos (zero_div _).le _ (standardsFor_pos p.gender).2.2.1
    (standardsFor_pos p.gender).2.2.2.1 (standardsFor_pos p.gender).2.2.2.2

/-- The overall tier is the source's `levels[min of the three indexOf]`. -/
lemma overall_eq_tierOfIndex (p : UserProfile) :
    (assessStrengthLevel p).overall =
      tierOfIndex (min (tierIndex (assessStrengthLevel p).bench)
        (min (tierIndex (assessStrengthLevel p).squat)
          (tierIndex (assessStrengthLevel p).deadlift))) := rfl

/-- One beginner per-lift tier drags the overall tier down to beginner. -/
lemma overall_beginner_of_any (p : UserProfile)
    (h : (assessStrengthLevel p).bench = .beginner ∨ (assessStrengthLevel p).squat = .beginner ∨
      (assessStrengthLevel p).deadlift = .beginner) :
    (assessStrengthLevel p).overall = .beginner := by
  rw [overall_eq_tierOfIndex]
  rcases h with h | h | h <;> rw [h] <;>
    simp [tierIndex, tierOfIndex, Nat.zero_min, Nat.min_zero]

lemma getStrengthProgram_const (a b : StrengthTier) :
    getStrengthProgram a = getStrengthProgram b := rfl

lemma getHypertrophyProgram_const (a b : StrengthTier) :
    getHypertrophyProgram a = getHypertrophyProgram b := rfl

lemma getFatLossProgram_const (a b : StrengthTier) :
    getFatLossProgram a = getFatLossProgram b := rfl

/-- The lose_fat branch of `generateNutritionPlan`, unfolded. -/
lemma nutrition_lose_fat (p : UserProfile) (h : p.fitnessAim = .lose_fat) :
    generateNutritionPlan p =
      { totalCalories := round (calculateTDEE p * 0.8)
        protein := round (calculateTDEE p * 0.8 * 40 / 100 / 4)
        carbs := round (calculateTDEE p * 0.8 * 30 / 100 / 4)
        fat := round (calculateTDEE p * 0.8 * 30 / 100 / 9)
        proteinPercent := 40, carbsPercent := 30, fatPercent := 30, mealsPerDay := 4 } := by
  simp only [generateNutritionPlan, h]
  norm_num

/-- The gain_muscle branch of `generateNutritionPlan`, unfolded. -/
lemma nutrition_gain_muscle (p : UserProfile) (h : p.fitnessAim = .gain_muscle) :
    generateNutritionPlan p =
      { totalCalories := round (calculateTDEE p * 1.15)
        protein := round (calculateTDEE p * 1.15 * 25 / 100 / 4)
        carbs := round (calculateTDEE p * 1.15 * 50 / 100 / 4)
        fat := round (calculateTDEE p * 1.15 * 25 / 100 / 9)
        proteinPercent := 25, carbsPercent := 50, fatPercent := 25, mealsPerDay := 4 } := by
  simp only [generateNutritionPlan, h]
  norm_num

/-- The maintain (default) branch of `generateNutritionPlan`, unfolded. -/
lemma nutrition_maintain (p : UserProfile) (h : p.fitnessAim = .maintain) :
    generateNutritionPlan p =
      { totalCalories := round (calculateTDEE p)
        protein := round (calculateTDEE p * 30 / 100 / 4)
        carbs := round (calculateTDEE p * 40 / 100 / 4)
        fat := round (calculateTDEE p * 30 / 100 / 9)
        proteinPercent := 30, carbsPercent := 40, fatPercent := 30, mealsPerDay := 4 } := by
  simp only [generateNutritionPlan, h]
  norm_num

/-- Independently rounding the four fields puts the reconstituted energy
within 4·(1/2) + 4·(1/2) + 9·(1/2) + 1/2 = 9 kcal of the calorie total. -/
lemma sum_round_bound (c P C F : ℚ) (h : P + C + F = 100) :
    |(4 * round (c * P / 100 / 4) + 4 * round (c * C / 100 / 4) +
        9 * round (c * F / 100 / 9) - round c : ℤ)| ≤ 9 := by
  have hp := abs_sub_round (c * P / 100 / 4)
  have hc := abs_sub_round (c * C / 100 / 4)
  have hf := abs_sub_round (c * F / 100 / 9)
  have ht := abs_sub_round c
  rw [abs_le] at hp hc hf ht
  have e1 : 4 * (c * P / 100 / 4) = c * P / 100 := by ring
  have e2 : 4 * (c * C / 100 / 4) = c * C / 100 := by ring
  have e3 : 9 * (c * F / 100 / 9) = c * F / 100 := by ring
  have esum : c * P / 100 + c * C / 100 + c * F / 100 = c := by
    rw [div_add_div_same, div_add_div_same, ← mul_add, ← mul_add, h]
    norm_num
  rw [abs_le]
  constructor
  · have hq : (-9 : ℚ) ≤ 4 * (round (c * P / 100 / 4) : ℚ) + 4 * (round (c * C / 100 / 4) : ℚ) +
        9 * (round (c * F / 100 / 9) : ℚ) - (round c : ℚ) := by
      nlinarith [hp.1, hp.2, hc.1, hc.2, hf.1, hf.2, ht.1, ht.2]
    exact_mod_cast hq
  · have hq : 4 * (round (c * P / 100 / 4) : ℚ) + 4 * (round (c * C / 100 / 4) : ℚ) +
        9 * (round (c * F / 100 / 9) : ℚ) - (round c : ℚ) ≤ 9 := by
      nlinarith [hp.1, hp.2, hc.1, hc.2, hf.1, hf.2, ht.1, ht.2]
    exact_mod_cast hq

/-- Two profiles yielding the same personalized plan but different
strength assessments: adding an 80 kg bench press to `profileMaintainA`
moves the bench tier to novice while every plan output is unchanged. -/
lemma c2_pair :
    createPersonalizedPlan profileMaintainA = createPersonalizedPlan profileC2B ∧
    assessStrengthLevel profileMaintainA ≠ assessStrengthLevel profileC2B := by
  have hA : assessStrengthLevel profileMaintainA = ⟨.beginner, .beginner, .beginner, .beginner⟩ := by
    norm_num [assessStrengthLevel, assessLift, standardsFor, tierIndex, tierOfIndex,
      profileMaintainA]
  have hB : assessStrengthLevel profileC2B = ⟨.novice, .beginner, .beginner, .beginner⟩ := by
    norm_num [assessStrengthLevel, assessLift, standardsFor, tierIndex, tierOfIndex, profileC2B]
  have hw : generateWorkoutProgram profileMaintainA = generateWorkoutProgram profileC2B := rfl
  have hn : generateNutritionPlan profileMaintainA = generateNutritionPlan profileC2B := rfl
  have ht : calculateTDEE profileMaintainA = calculateTDEE profileC2B := rfl
  constructor
  · simp only [createPersonalizedPlan, hA, hB, hw, hn, ht]
  · rw [hA, hB]
    simp

end EnclaveHealth

namespace EnclaveHealth

open EvaluationModel

/-- Claim C1 (amended): generateNutritionPlan selects the calorie factor
and percent split by fitnessAim (lose_fat 0.80 with 40/30/30,
gain_muscle 1.15 with 25/50/25, maintain 1.00 with 30/40/30), rounds
tdee * factor into totalCalories, computes each macro gram field by
rounding calories * percent / 100 / 4 (fat / 9) from the unrounded
calories, and fixes mealsPerDay at 4; for any profile with TDEE 2759 and
aim lose_fat the plan is 2207 kcal, 221 g protein, 166 g carbs, 74 g fat. -/
theorem c1_nutrition_formula :
    (∀ p : UserProfile, generateNutritionPlan p = nutritionPlanSpec p)
    ∧ (∀ p : UserProfile, p.fitnessAim = .lose_fat → calculateTDEE p = 2759 →
        generateNutritionPlan p = ⟨2207, 221, 166, 74, 40, 30, 30, 4⟩) := by
  constructor
  · intro p
    rcases h : p.fitnessAim with _ | _ | _
    · rw [nutrition_lose_fat p h]
      simp only [nutritionPlanSpec, h]
      norm_num
    · rw [nutrition_gain_muscle p h]
      simp only [nutritionPlanSpec, h]
      norm_num
    · rw [nutrition_maintain p h]
      simp only [nutritionPlanSpec, h]
      norm_num
  · intro p h htdee
    rw [nutrition_lose_fat p h, htdee]
    simp only [NutritionPlan.mk.injEq]
    exact ⟨round_val (by norm_num) (by norm_num), round_val (by norm_num) (by norm_num),
      round_val (by norm_num) (by norm_num), round_val (by norm_num) (by norm_num),
      trivial, trivial, trivial, trivial⟩

/-- Witness for C1: the spec's example profile has aim lose_fat and TDEE
2759, and its nutrition plan is 2207/221/166/74 with a 40/30/30 split. -/
theorem c1_witness :
    profileLoseFat80.fitnessAim = .lose_fat ∧ calculateTDEE profileLoseFat80 = 2759 ∧
    generateNutritionPlan profileLoseFat80 = ⟨2207, 221, 166, 74, 40, 30, 30, 4⟩ := by
  have htdee : calculateTDEE profileLoseFat80 = 2759 := by
    norm_num [calculateTDEE, calculateBMR, profileLoseFat80]
  exact ⟨rfl, htdee, c1_nutrition_formula.2 profileLoseFat80 rfl htdee⟩

/-- Counterexample for C1 as stated: on `profileC1` (TDEE 2006.63 kcal,
aim maintain) the code returns protein = round(2006.63 * 30/100/4) = 150,
while the claimed formula round(totalCalories * 30/100/4) =
round(2007 * 0.075) gives 151. -/
theorem c1_counterexample :
    (generateNutritionPlan profileC1).protein ≠
      round (((generateNutritionPlan profileC1).totalCalories : ℚ) *
        ((generateNutritionPlan profileC1).proteinPercent : ℚ) / 100 / 4) := by
  have hplan : generateNutritionPlan profileC1 = ⟨2007, 150, 201, 67, 30, 40, 30, 4⟩ := by
    have htdee : calculateTDEE profileC1 = 2006.63 := by
      norm_num [calculateTDEE, calculateBMR, profileC1]
    rw [nutrition_maintain profileC1 rfl, htdee]
    simp only [NutritionPlan.mk.injEq]
    exact ⟨round_val (by norm_num) (by norm_num), round_val (by norm_num) (by norm_num),
      round_val (by norm_num) (by norm_num), round_val (by norm_num) (by norm_num),
      trivial, trivial, trivial, trivial⟩
  rw [hplan]
  have h151 : round ((2007 : ℚ) * 30 / 100 / 4) = 151 := round_val (by norm_num) (by norm_num)
  intro hcontra
  rw [show (((2007 : ℤ) : ℚ) * ((30 : ℤ) : ℚ) / 100 / 4) = ((2007 : ℚ) * 30 / 100 / 4) by
    push_cast; ring, h151] at hcontra
  exact absurd hcontra (by norm_num)

/-- Claim C2 (amended): the PersonalizedPlan returned by
createPersonalizedPlan is the record of the WorkoutProgram, the
NutritionPlan and the six recommendation strings; it does not carry the
StrengthAssessment as a component (only the overall tier appears,
interpolated into the first recommendation string), and no function of
the plan can recover the per-lift assessment. -/
theorem c2_plan_components :
    (∀ p : UserProfile,
      createPersonalizedPlan p =
        { workoutProgram := generateWorkoutProgram p
          nutritionPlan := generateNutritionPlan p
          recommendations := [
            s!"Based on your strength level ({(assessStrengthLevel p).overall.str}), we\x27ve designed a {(generateWorkoutProgram p).type.str} program.",
            s!"Your estimated TDEE is {round (calculateTDEE p)} calories per day.",
            s!"Target {(generateNutritionPlan p).protein}g protein, {(generateNutritionPlan p).carbs}g carbs, {(generateNutritionPlan p).fat}g fat daily.",
            "Track your workouts and adjust weights progressively.",
            "Stay consistent with your nutrition and training schedule.",
            "Take progress photos and measurements weekly."
          ] })
    ∧ ¬ ∃ f : PersonalizedPlan → StrengthAssessment,
        ∀ p : UserProfile, f (createPersonalizedPlan p) = assessStrengthLevel p := by
  constructor
  · intro p; rfl
  · rintro ⟨f, hf⟩
    have h1 := hf profileMaintainA
    have h2 := hf profileC2B
    rw [c2_pair.1] at h1
    exact c2_pair.2 (h1.symm.trans h2)

/-- Counterexample for C2 as stated: two profiles whose personalized
plans are equal but whose strength assessments differ, so the plan
cannot contain the assessment as a component. -/
theorem c2_counterexample :
    createPersonalizedPlan profileMaintainA = createPersonalizedPlan profileC2B ∧
    assessStrengthLevel profileMaintainA ≠ assessStrengthLevel profileC2B := c2_pair

/-- Claim C3: each lift's tier is the highest of the four ascending
thresholds its body-weight ratio meets or exceeds (beginner below the
lowest), with one table for male and a second, strictly lower table
shared by female and other; the overall tier is the ordinal minimum of
the three per-lift tiers; and weight 80, gender male, bench 120 yields
bench tier advanced. -/
theorem c3_strength_tiers :
    (∀ p : UserProfile,
      (assessStrengthLevel p).bench =
        specAssessLift (p.benchPress.getD 0 / p.weight) (standardsFor p.gender).bench
      ∧ (assessStrengthLevel p).squat =
        specAssessLift (p.squat.getD 0 / p.weight) (standardsFor p.gender).squat
      ∧ (assessStrengthLevel p).deadlift =
        specAssessLift (p.deadlift.getD 0 / p.weight) (standardsFor p.gender).deadlift
      ∧ tierIndex (assessStrengthLevel p).overall =
        min (tierIndex (assessStrengthLevel p).bench)
          (min (tierIndex (assessStrengthLevel p).squat)
            (tierIndex (assessStrengthLevel p).deadlift)))
    ∧ standardsFor .female = standardsFor .other
    ∧ (∀ lift : StrengthStandards → LiftStandard,
        lift = StrengthStandards.bench ∨ lift = StrengthStandards.squat ∨
          lift = StrengthStandards.deadlift →
        ∀ g : Gender, g ≠ .male →
          (lift (standardsFor g)).beginner < (lift (standardsFor .male)).beginner
          ∧ (lift (standardsFor g)).novice < (lift (standardsFor .male)).novice
          ∧ (lift (standardsFor g)).intermediate < (lift (standardsFor .male)).intermediate
          ∧ (lift (standardsFor g)).advanced < (lift (standardsFor .male)).advanced)
    ∧ (∀ p : UserProfile, p.weight = 80 → p.gender = .male → p.benchPress = some 120 →
        (assessStrengthLevel p).bench = .advanced) := by
  refine ⟨fun p => ⟨?_, ?_, ?_, ?_⟩, rfl, ?_, ?_⟩
  · exact assessLift_eq_spec _ _ _
  · exact assessLift_eq_spec _ _ _
  · exact assessLift_eq_spec _ _ _
  · exact tierIndex_tierOfIndex
      (le_trans (Nat.min_le_left _ _) (tierIndex_le_three _))
  · rintro lift (rfl | rfl | rfl) g hg <;>
      rw [standardsFor_nonmale hg, standardsFor_male] <;> norm_num
  · intro p hw hg hb
    show assessLift p.weight (p.benchPress.getD 0) (standardsFor p.gender).bench = .advanced
    rw [hw, hg, hb]
    norm_num [assessLift, standardsFor]

/-- Witness for C3: the 80 kg male profile with a 120 kg bench press is
assessed advanced on the bench. -/
theorem c3_witness :
    ({ profileLoseFat80 with benchPress := some 120 } : UserProfile).weight = 80 ∧
    ({ profileLoseFat80 with benchPress := some 120 } : UserProfile).gender = .male ∧
    (assessStrengthLevel { profileLoseFat80 with benchPress := some 120 }).bench = .advanced :=
  ⟨rfl, rfl, c3_strength_tiers.2.2.2 _ rfl rfl rfl⟩

/-- Claim C4: generateWorkoutProgram depends only on fitnessAim — the
template builders ignore the strength level, the selected template is a
pure branch on the aim (gain_muscle hypertrophy, lose_fat fat-loss,
anything else strength), and profiles sharing an aim share the program. -/
theorem c4_program_depends_only_on_aim :
    (∀ t : StrengthTier,
      getStrengthProgram t = getStrengthProgram .beginner
      ∧ getHypertrophyProgram t = getHypertrophyProgram .beginner
      ∧ getFatLossProgram t = getFatLossProgram .beginner)
    ∧ (∀ p : UserProfile,
      generateWorkoutProgram p =
        if p.fitnessAim = .gain_muscle then getHypertrophyProgram .beginner
        else if p.fitnessAim = .lose_fat then getFatLossProgram .beginner
        else getStrengthProgram .beginner)
    ∧ (∀ p q : UserProfile, p.fitnessAim = q.fitnessAim →
        generateWorkoutProgram p = generateWorkoutProgram q) := by
  have h2 : ∀ p : UserProfile,
      generateWorkoutProgram p =
        if p.fitnessAim = .gain_muscle then getHypertrophyProgram .beginner
        else if p.fitnessAim = .lose_fat then getFatLossProgram .beginner
        else getStrengthProgram .beginner := by
    intro p
    rw [generateWorkoutProgram]
    by_cases hg : p.fitnessAim = .gain_muscle
    · rw [if_pos hg, if_pos hg]; exact getHypertrophyProgram_const _ _
    · rw [if_neg hg, if_neg hg]
      by_cases hl : p.fitnessAim = .lose_fat
      · rw [if_pos hl, if_pos hl]; exact getFatLossProgram_const _ _
      · rw [if_neg hl, if_neg hl]; exact getStrengthProgram_const _ _
  refine ⟨fun t => ⟨rfl, rfl, rfl⟩, h2, fun p q h => ?_⟩
  rw [h2 p, h2 q, h]

/-- Witness for C4: two maintain-aim profiles differing in gender,
weight, height, age, lifts, ids and dates get the same workout program. -/
theorem c4_witness :
    profileMaintainA.fitnessAim = profileMaintainB.fitnessAim ∧
    generateWorkoutProgram profileMaintainA = generateWorkoutProgram profileMaintainB :=
  ⟨rfl, c4_program_depends_only_on_aim.2.2 profileMaintainA profileMaintainB rfl⟩

/-- Claim C5: calculateBMR is the Mifflin-St Jeor equation with +5 for
male and −161 for female or other, calculateTDEE is BMR * 1.55, and the
male 80 kg / 180 cm / 30 y profile has BMR 1780 and TDEE 2759. -/
theorem c5_bmr_tdee (p : UserProfile) :
    (p.gender = .male → calculateBMR p = 10 * p.weight + 6.25 * p.height - 5 * p.age + 5)
    ∧ (p.gender = .female ∨ p.gender = .other →
        calculateBMR p = 10 * p.weight + 6.25 * p.height - 5 * p.age - 161)
    ∧ calculateTDEE p = calculateBMR p * 1.55
    ∧ (p.weight = 80 → p.height = 180 → p.age = 30 → p.gender = .male →
        calculateBMR p = 1780 ∧ calculateTDEE p = 2759) := by
  refine ⟨fun h => by rw [calculateBMR, if_pos h], fun h => ?_, rfl, fun hw hh ha hg => ?_⟩
  · rcases h with h | h <;> rw [calculateBMR, if_neg (by rw [h]; intro hx; cases hx)]
  · have hb : calculateBMR p = 1780 := by
      rw [calculateBMR, if_pos hg, hw, hh, ha]; norm_num
    exact ⟨hb, by rw [calculateTDEE]; rw [hb]; norm_num⟩

/-- Witness for C5: the example profile instantiates the concrete BMR
and TDEE values. -/
theorem c5_witness :
    profileLoseFat80.weight = 80 ∧ profileLoseFat80.height = 180 ∧ profileLoseFat80.age = 30 ∧
    profileLoseFat80.gender = .male ∧
    calculateBMR profileLoseFat80 = 1780 ∧ calculateTDEE profileLoseFat80 = 2759 := by
  obtain ⟨h1, h2⟩ := (c5_bmr_tdee profileLoseFat80).2.2.2 rfl rfl rfl rfl
  exact ⟨rfl, rfl, rfl, rfl, h1, h2⟩

/-- Claim C6: the reconstituted energy 4*protein + 4*carbs + 9*fat of
any generated nutrition plan is within 9 kcal of totalCalories, and the
three percent fields always sum to 100. -/
theorem c6_macro_energy_invariant (p : UserProfile) :
    |(4 * (generateNutritionPlan p).protein + 4 * (generateNutritionPlan p).carbs +
        9 * (generateNutritionPlan p).fat - (generateNutritionPlan p).totalCalories : ℤ)| ≤ 9
    ∧ (generateNutritionPlan p).proteinPercent + (generateNutritionPlan p).carbsPercent +
        (generateNutritionPlan p).fatPercent = 100 := by
  rcases h : p.fitnessAim with _ | _ | _
  · rw [nutrition_lose_fat p h]
    exact ⟨sum_round_bound _ 40 30 30 (by norm_num), by norm_num⟩
  · rw [nutrition_gain_muscle p h]
    exact ⟨sum_round_bound _ 25 50 25 (by norm_num), by norm_num⟩
  · rw [nutrition_maintain p h]
    exact ⟨by
      have := sum_round_bound (calculateTDEE p) 30 40 30 (by norm_num)
      simpa using this, by norm_num⟩

/-- Claim C7: a missing lift defaults to 0 and is tiered beginner, which
forces the overall tier to beginner; with weight 80, gender male and all
three lifts 0, every tier is beginner. -/
theorem c7_missing_lifts (p : UserProfile) :
    (p.benchPress = none →
      (assessStrengthLevel p).bench = .beginner ∧ (assessStrengthLevel p).overall = .beginner)
    ∧ (p.squat = none →
      (assessStrengthLevel p).squat = .beginner ∧ (assessStrengthLevel p).overall = .beginner)
    ∧ (p.deadlift = none →
      (assessStrengthLevel p).deadlift = .beginner ∧ (assessStrengthLevel p).overall = .beginner)
    ∧ (p.weight = 80 → p.gender = .male → p.benchPress = some 0 → p.squat = some 0 →
        p.deadlift = some 0 →
        assessStrengthLevel p = ⟨.beginner, .beginner, .beginner, .beginner⟩) := by
  refine ⟨fun h => ?_, fun h => ?_, fun h => ?_, fun hw hg h1 h2 h3 => ?_⟩
  · have hb := bench_zero_beginner p (by rw [h]; rfl)
    exact ⟨hb, overall_beginner_of_any p (Or.inl hb)⟩
  · have hb := squat_zero_beginner p (by rw [h]; rfl)
    exact ⟨hb, overall_beginner_of_any p (Or.inr (Or.inl hb))⟩
  · have hb := deadlift_zero_beginner p (by rw [h]; rfl)
    exact ⟨hb, overall_beginner_of_any p (Or.inr (Or.inr hb))⟩
  · have hb := bench_zero_beginner p (by rw [h1]; rfl)
    have hs := squat_zero_beginner p (by rw [h2]; rfl)
    have hd := deadlift_zero_beginner p (by rw [h3]; rfl)
    have ho := overall_beginner_of_any p (Or.inl hb)
    cases hass : assessStrengthLevel p
    rw [hass] at hb hs hd ho
    simp only at hb hs hd ho
    rw [hb, hs, hd, ho]

/-- Witness for C7: the 80 kg male profile with all lifts 0 is assessed
beginner on every lift and overall. -/
theorem c7_witness :
    profileZeroLifts.weight = 80 ∧ profileZeroLifts.gender = .male ∧
    profileZeroLifts.benchPress = some 0 ∧ profileZeroLifts.squat = some 0 ∧
    profileZeroLifts.deadlift = some 0 ∧
    assessStrengthLevel profileZeroLifts = ⟨.beginner, .beginner, .beginner, .beginner⟩ :=
  ⟨rfl, rfl, rfl, rfl, rfl, (c7_missing_lifts profileZeroLifts).2.2.2 rfl rfl rfl rfl rfl⟩

/-- Claim C8: calculateOneRM returns the weight unchanged for one rep
and weight * (1 + reps/30) otherwise, with no guard for reps ≤ 0;
calculateOneRM 100 1 = 100 and calculateOneRM 100 10 = 400/3. -/
theorem c8_one_rm_epley :
    (∀ w : ℚ, calculateOneRM w 1 = w)
    ∧ (∀ w r : ℚ, r ≠ 1 → calculateOneRM w r = w * (1 + r / 30))
    ∧ calculateOneRM 100 1 = 100
    ∧ calculateOneRM 100 10 = 400 / 3
    ∧ calculateOneRM 100 0 = 100 := by
  have h2 : ∀ w r : ℚ, r ≠ 1 → calculateOneRM w r = w * (1 + r / 30) :=
    fun w r h => by rw [calculateOneRM, if_neg h]
  refine ⟨fun w => by rw [calculateOneRM, if_pos rfl], h2, by rw [calculateOneRM, if_pos rfl],
    ?_, ?_⟩
  · rw [h2 100 10 (by norm_num)]; norm_num
  · rw [h2 100 0 (by norm_num)]; norm_num

/-- Witness for C8: the Epley branch applied at ten reps. -/
theorem c8_witness : (10 : ℚ) ≠ 1 ∧ calculateOneRM 50 10 = 50 * (1 + 10 / 30) :=
  ⟨by norm_num, c8_one_rm_epley.2.1 50 10 (by norm_num)⟩

/-- Claim C9: no engine operation rejects degenerate input — with body
weight 0 or negative weight, zero or negative reps, and missing or zero
lifts, every call still evaluates to a plain result. -/
theorem c9_no_errors :
    assessStrengthLevel profileZeroWeight = ⟨.beginner, .beginner, .beginner, .beginner⟩
    ∧ generateNutritionPlan profileZeroWeight = ⟨1519, 114, 152, 51, 30, 40, 30, 4⟩
    ∧ (createPersonalizedPlan profileZeroWeight).workoutProgram.name = "Starting Strength Program"
    ∧ (createPersonalizedPlan profileZeroWeight).recommendations.length = 6
    ∧ assessStrengthLevel profileNegWeight = ⟨.beginner, .beginner, .beginner, .beginner⟩
    ∧ calculateBMR profileNegWeight = 280
    ∧ (createPersonalizedPlan profileNegWeight).nutritionPlan.totalCalories = 434
    ∧ calculateOneRM 100 0 = 100
    ∧ calculateOneRM 100 (-30) = 0
    ∧ calculateOneRM (-5) 3 = -5.5 := by
  have htz : calculateTDEE profileZeroWeight = 1519 := by
    norm_num [calculateTDEE, calculateBMR, profileZeroWeight]
  have htn : calculateTDEE profileNegWeight = 434 := by
    norm_num [calculateTDEE, calculateBMR, profileNegWeight]
  refine ⟨?_, ?_, rfl, rfl, ?_, ?_, ?_, ?_, ?_, ?_⟩
  · norm_num [assessStrengthLevel, assessLift, standardsFor, tierIndex, tierOfIndex,
      profileZeroWeight]
  · rw [nutrition_maintain profileZeroWeight rfl, htz]
    simp only [NutritionPlan.mk.injEq]
    exact ⟨round_val (by norm_num) (by norm_num), round_val (by norm_num) (by norm_num),
      round_val (by norm_num) (by norm_num), round_val (by norm_num) (by norm_num),
      trivial, trivial, trivial, trivial⟩
  · norm_num [assessStrengthLevel, assessLift, standardsFor, tierIndex, tierOfIndex,
      profileNegWeight]
  · norm_num [calculateBMR, profileNegWeight]
  · have hnp : (createPersonalizedPlan profileNegWeight).nutritionPlan =
        generateNutritionPlan profileNegWeight := rfl
    rw [hnp, nutrition_maintain profileNegWeight rfl, htn]
    exact round_val (by norm_num) (by norm_num)
  · rw [calculateOneRM, if_neg (by norm_num)]; norm_num
  · rw [calculateOneRM, if_neg (by norm_num)]; norm_num
  · rw [calculateOneRM, if_neg (by norm_num)]; norm_num

/-- Claim C10: overheadPress, name, id, createdAt and updatedAt are never
read by the engine, so changing any of them leaves the personalized plan
untouched. -/
theorem c10_unused_fields_irrelevant (p : UserProfile) (ohp : Option ℚ) (nm : String)
    (i : Option Nat) (c u : ℤ) :
    createPersonalizedPlan
      { p with overheadPress := ohp, name := nm, id := i, createdAt := c, updatedAt := u } =
      createPersonalizedPlan p := rfl

end EnclaveHealth
